/-
Verification of the mur registry-adapter and install/publish orchestration
core against its specification.  The Python sources under src/mur are
shallowly embedded: strings become `List Char`, configuration files become
the option values the code reads from them, network and subprocess results
become explicit parameters, and every fallible operation returns `Except`.
-/
import Mathlib

/-- Strings of the embedded program are lists of characters, so that the
Python substring operator `in` becomes `List.IsInfix` and all checks stay
decidable. -/
abbrev Str := List Char

/-- Modelled from the spec: the typed error of utils/error_handler.py (file
absent from src/).  Section 7 of the spec describes one typed error carrying
a numeric `code` plus messages; only the code is ever branched on by the
code under verification, so the embedding keeps just the code. -/
structure MurError where
  code : Nat
deriving DecidableEq, Repr

/-- Modelled from the spec: the hardcoded default public index URL
`DEFAULT_MURMUR_INDEX_URL` of utils/constants.py (file absent from src/).
The spec calls it "a known default public URL" without giving the literal;
every claim depends only on equality with this fixed non-empty constant,
so a representative concrete URL on the managed domain stands in. -/
def DEFAULT_MURMUR_INDEX_URL : Str := "https://artifacts.murmur.nexus/simple".toList

/-- Python `str.lower` restricted to the characters that occur here. -/
def pyLower (s : Str) : Str := s.map Char.toLower

/-- Python `str.strip()`: drop whitespace from both ends. -/
def pyStrip (s : Str) : Str :=
  ((s.dropWhile Char.isWhitespace).reverse.dropWhile Char.isWhitespace).reverse

/-- The newline character separating `extra-index-url` entries. -/
def nlChar : Char := Char.ofNat 10

/-- adapter_factory.verify_registry_settings: the `index-url` option of the
`[murmur-nexus]` section is the input (`none` when the section or option is
missing); the result says whether a private registry is configured.
Missing option raises MurError 213. -/
def verify_registry_settings (indexUrl : Option Str) : Except MurError Bool :=
  match indexUrl with
  | none => .error ⟨213⟩
  | some u => .ok (decide (u ≠ DEFAULT_MURMUR_INDEX_URL))

/-- The two registry adapter variants constructed by the factory. -/
inductive RegistryAdapterKind where
  | publicRegistry
  | privateRegistry
deriving DecidableEq, Repr

/-- adapter_factory.get_registry_adapter: select the adapter variant from the
configured `index-url`. -/
def get_registry_adapter (indexUrl : Option Str) : Except MurError RegistryAdapterKind :=
  match verify_registry_settings indexUrl with
  | .error e => .error e
  | .ok usePrivate =>
      if usePrivate then .ok .privateRegistry else .ok .publicRegistry

/-- Parsing of the newline-delimited `extra-index-url` option, shared by both
adapters: split on newlines, strip each entry, drop blank entries, keep
order. -/
def parse_extra_index_urls (extra : Option Str) : List Str :=
  match extra with
  | none => []
  | some s => ((s.splitOn nlChar).map pyStrip).filter (fun u => !u.isEmpty)

/-- PrivateRegistryAdapter.get_package_indexes: the `[murmur-nexus]` section's
`index-url` (with `fallback=None`) and `extra-index-url` options are the
inputs.  A missing or empty index-url raises MurError 807; otherwise the
primary index comes first, followed by the parsed extras. -/
def PrivateRegistryAdapter.get_package_indexes
    (indexUrl : Option Str) (extra : Option Str) : Except MurError (List Str) :=
  match indexUrl with
  | none => .error ⟨807⟩
  | some u => if u.isEmpty then .error ⟨807⟩ else .ok (u :: parse_extra_index_urls extra)

/-- PublicRegistryAdapter.get_package_indexes: the `[global]` section's
`index-url` (read with `fallback=DEFAULT_MURMUR_INDEX_URL`, so the default
substitutes only when the option is absent) and `extra-index-url` options
are the inputs.  Never fails; primary first, then extras. -/
def PublicRegistryAdapter.get_package_indexes
    (indexUrl : Option Str) (extra : Option Str) : List Str :=
  (indexUrl.getD DEFAULT_MURMUR_INDEX_URL) :: parse_extra_index_urls extra

/-- The fixed status-code table of PublicRegistryAdapter._handle_error_response,
with the (800, generic server error) fallback for unlisted codes. -/
def STATUS_CODE_MAPPING (status : Nat) : Nat :=
  if status = 400 then 600
  else if status = 401 then 502
  else if status = 403 then 505
  else if status = 404 then 600
  else if status = 500 then 600
  else if status = 502 then 806
  else if status = 503 then 804
  else 800

/-- The token-expired override substring. -/
def tokenExpiredMsg : Str := "Token has expired".toList

/-- The bad-credentials override substring. -/
def badCredentialsMsg : Str := "Could not validate credentials".toList

/-- The duplicate-version override substring. -/
def duplicateVersionMsg : Str := "The package or file already exists in the feed".toList

/-- PublicRegistryAdapter._handle_error_response: substring-matched overrides
are checked in order (token expired, bad credentials, duplicate version)
before the status-code table; the result is the MurError raised. -/
def PublicRegistryAdapter.handle_error_response (status : Nat) (msg : Str) : MurError :=
  if tokenExpiredMsg <:+: msg then ⟨504⟩
  else if badCredentialsMsg <:+: msg then ⟨502⟩
  else if duplicateVersionMsg <:+: msg then ⟨302⟩
  else ⟨STATUS_CODE_MAPPING status⟩

/-- The uniform response envelope of core/requests.ApiResponse, generic over
the decoded JSON value type `J` and the validated payload type `T`.
`raw_data = none` stands for the `{}` default dictionary. -/
structure ApiResponse (J T : Type) where
  status_code : Nat
  data : Option T
  raw_data : Option J
  error : Option Str
deriving DecidableEq, Repr

/-- An HTTP response as the requests library delivers it to ApiClient.post:
status code, whether the body is non-empty (`response.content`), the result
of `response.json()` (`none` when the body does not decode as JSON, in which
case calling it raises), and the body text. -/
structure HttpResp (J : Type) where
  status : Nat
  hasContent : Bool
  jsonBody : Option J
  text : Str
deriving DecidableEq, Repr

/-- The fixed text of the parse-failure error envelope ApiClient.post builds
on HTTP 200 when decoding or model validation fails (the interpolated
exception detail is elided). -/
def parseFailureMsg : Str := "Failed to parse response".toList

/-- ApiClient.post, embedded over the outcome of the one network call it
makes: `none` means the requests library raised (connection refused, DNS
failure, timeout), `some r` is the response received.  `validate` embeds
`response_model(**response_data)`, returning `none` when pydantic validation
raises.  The result is the returned envelope, or the MurError raised by the
outer `except` handler (code 501). -/
def ApiClient.post {J T : Type} (validate : J → Option T)
    (outcome : Option (HttpResp J)) : Except MurError (ApiResponse J T) :=
  match outcome with
  | none => .error ⟨501⟩
  | some r =>
    if r.status = 200 then
      match r.jsonBody with
      | some j =>
        match validate j with
        | some t => .ok ⟨200, some t, some j, none⟩
        | none => .ok ⟨200, none, some j, some parseFailureMsg⟩
      | none => .ok ⟨200, none, none, some parseFailureMsg⟩
    else
      if r.hasContent then
        match r.jsonBody with
        | some j => .ok ⟨r.status, none, some j, some r.text⟩
        | none => .error ⟨501⟩
      else .ok ⟨r.status, none, none, some r.text⟩

/-- One pip invocation built by the install command: the requirement spec,
whether `--no-deps` is passed (dependency resolution disabled), the value of
`--index-url`, and the ordered `--extra-index-url` values. -/
structure Invocation where
  spec : Str
  noDeps : Bool
  indexUrl : Str
  extraIndexUrls : List Str
deriving DecidableEq, Repr

/-- InstallArtifactCommand._main_artifact_command: pip install with
dependency resolution disabled against the primary index. -/
def main_artifact_command (spec indexUrl : Str) : Invocation :=
  ⟨spec, true, indexUrl, []⟩

/-- InstallArtifactCommand._private_artifact_command: a single pip install
with full dependency resolution against the primary index. -/
def private_artifact_command (spec indexUrl : Str) : Invocation :=
  ⟨spec, false, indexUrl, []⟩

/-- Python exceptions crossing the boundaries of the install helpers:
the IndexError from `extra_index_urls[0]` on an empty list, and the typed
MurError. -/
inductive PyExn where
  | indexError
  | murError (e : MurError)
deriving DecidableEq, Repr

/-- InstallArtifactCommand._dependencies_artifact_command: install one
declared dependency with the first extra index as `--index-url` and the
original primary index as `--extra-index-url`; the remaining extra indexes
are appended only when `len(extra_index_urls[1:]) > 1`.  With no extra
index configured, `extra_index_urls[0]` raises IndexError before pip runs. -/
def dependencies_artifact_command (spec indexUrl : Str) (extraIndexUrls : List Str) :
    Except PyExn Invocation :=
  match extraIndexUrls with
  | [] => .error .indexError
  | e0 :: rest =>
      .ok ⟨spec, false, e0, indexUrl :: (if rest.length > 1 then rest else [])⟩

/-- Outcome of the GET on the registry metadata endpoint in
_process_artifact_metadata: the three requests exception classes the code
catches, or a decoded body whose `requires_dist` list is given (the code
treats a missing or empty list the same way, as no dependencies). -/
inductive MetaFetch where
  | connectionError
  | timeoutError
  | requestError
  | ok (requires_dist : List Str)
deriving DecidableEq, Repr

/-- The dependency loop of _process_artifact_metadata: each declared
dependency in order, stopping at the first raised exception. -/
def install_dependencies (indexUrl : Str) (extraIndexUrls : List Str) :
    List Str → Except PyExn (List Invocation)
  | [] => .ok []
  | d :: ds => do
      let inv ← dependencies_artifact_command d indexUrl extraIndexUrls
      let rest ← install_dependencies indexUrl extraIndexUrls ds
      pure (inv :: rest)

/-- InstallArtifactCommand._process_artifact_metadata: translate the three
caught requests exceptions into MurError 806 / 804 / 803, otherwise run the
dependency loop; an IndexError from the loop propagates. -/
def process_artifact_metadata (indexUrl : Str) (extraIndexUrls : List Str)
    (meta : MetaFetch) : Except PyExn (List Invocation) :=
  match meta with
  | .connectionError => .error (.murError ⟨806⟩)
  | .timeoutError => .error (.murError ⟨804⟩)
  | .requestError => .error (.murError ⟨803⟩)
  | .ok deps => install_dependencies indexUrl extraIndexUrls deps

/-- The stderr substring the nexus install path inspects for connection
failures. -/
def connectionRefusedMsg : Str := "Connection refused".toList

/-- The stderr substring the nexus install path inspects for unresolvable
versions. -/
def couldNotFindVersionMsg : Str := "Could not find a version".toList

/-- InstallArtifactCommand._install_nexus_artifact: run the main pip command
first (`mainResult` is `none` on exit code 0, `some stderr` for a
CalledProcessError, mapped to MurError 806 or 307 by substring), then fetch
metadata and install the declared dependencies.  The result lists the pip
invocations executed in order. -/
def install_nexus_artifact (spec indexUrl : Str) (extraIndexUrls : List Str)
    (meta : MetaFetch) (mainResult : Option Str) : Except PyExn (List Invocation) :=
  match mainResult with
  | some err =>
      if connectionRefusedMsg <:+: err ∨ couldNotFindVersionMsg <:+: err then
        .error (.murError ⟨806⟩)
      else .error (.murError ⟨307⟩)
  | none => do
      let rest ← process_artifact_metadata indexUrl extraIndexUrls meta
      pure (main_artifact_command spec indexUrl :: rest)

/-- The managed-registry domain marker checked by substring on the primary
index URL. -/
def nexusDomain : Str := ".murmur.nexus".toList

/-- InstallArtifactCommand._handle_artifact_installation: route on whether
the primary index URL contains the managed domain. -/
def handle_artifact_installation (spec indexUrl : Str) (extraIndexUrls : List Str)
    (meta : MetaFetch) (mainResult : Option Str) : Except PyExn (List Invocation) :=
  if nexusDomain <:+: indexUrl then
    install_nexus_artifact spec indexUrl extraIndexUrls meta mainResult
  else .ok [private_artifact_command spec indexUrl]

/-- The literal version string treated as "any version". -/
def latestStr : Str := "latest".toList

/-- InstallArtifactCommand._is_artifact_installed: `installedVersion` is the
result of the importlib.metadata lookup (`none` when PackageNotFoundError is
raised).  When the requested version lowercases to `latest` or is empty, any
installed version satisfies the check. -/
def is_artifact_installed (installedVersion : Option Str) (version : Str) : Bool :=
  match installedVersion with
  | none => false
  | some iv =>
      if pyLower version = latestStr ∨ version = [] then true
      else iv = version

/-- The requirement spec `_install_artifact` builds: the bare name for
`latest` or empty versions, otherwise `name==version`. -/
def artifact_spec_of (name version : Str) : Str :=
  if pyLower version = latestStr ∨ pyLower version = [] then name
  else name ++ "==".toList ++ version

/-- InstallArtifactCommand._install_artifact: skip everything when the
artifact is already installed, otherwise run the routed installation; a
MurError is re-raised as-is and any other exception is wrapped into
MurError 300. -/
def install_artifact (installedVersion : Option Str) (name version indexUrl : Str)
    (extraIndexUrls : List Str) (meta : MetaFetch) (mainResult : Option Str) :
    Except MurError (List Invocation) :=
  if is_artifact_installed installedVersion version then .ok []
  else
    match handle_artifact_installation (artifact_spec_of name version) indexUrl
        extraIndexUrls meta mainResult with
    | .ok t => .ok t
    | .error (.murError e) => .error e
    | .error .indexError => .error ⟨300⟩

/-- The normalization `_update_init_file` applies to the artifact name before
building the import line: lowercase, hyphens to underscores. -/
def artifact_name_pep8 (name : Str) : Str :=
  (pyLower name).map (fun c => if c = '-' then '_' else c)

/-- The import line `_update_init_file` manages for one artifact. -/
def import_line_of (name : Str) : Str :=
  "from .".toList ++ artifact_name_pep8 name ++ ".main import ".toList
    ++ artifact_name_pep8 name

/-- InstallArtifactCommand._update_init_file on the aggregation file content:
`none` is an absent file (created holding just the import line); otherwise,
when the import line already occurs as a substring nothing is written, and
when it does not the content gets a trailing newline if it lacks one and the
line plus a newline is appended.  The result is the file content
afterwards. -/
def update_init_file (name : Str) (file : Option Str) : Str :=
  let line := import_line_of name
  match file with
  | none => line ++ [nlChar]
  | some c =>
      if line <:+: c then c
      else
        (if c.getLast? = some nlChar then c else c ++ [nlChar]) ++ line ++ [nlChar]

/-- UninstallArtifactCommand._normalize_artifact_name: lowercase, hyphens and
dots to underscores. -/
def normalize_artifact_name (name : Str) : Str :=
  ((pyLower name).map (fun c => if c = '-' then '_' else c)).map
    (fun c => if c = '.' then '_' else c)

/-- UninstallArtifactCommand._find_installed_artifact: the first installed
package whose normalized name matches the normalized requested name. -/
def find_installed_artifact (name : Str) (artifacts : List Str) : Option Str :=
  artifacts.find? (fun pkg => normalize_artifact_name pkg = normalize_artifact_name name)

/-- UninstallArtifactCommand._uninstall_artifact: when no installed package
matches, return without running pip and without raising; otherwise run one
pip uninstall (`pipOk` is its exit status), raising MurError 309 on failure.
The result lists the package names pip uninstall was invoked on. -/
def uninstall_artifact (artifacts : List Str) (name : Str) (pipOk : Bool) :
    Except MurError (List Str) :=
  match find_installed_artifact name artifacts with
  | none => .ok []
  | some pkg => if pipOk then .ok [pkg] else .error ⟨309⟩

/-- An artifact node of the murmur.yaml manifest: name, version, and the
nested tool list (present only for agents). -/
inductive ArtifactNode where
  | mk (name : Str) (version : Str) (tools : List ArtifactNode)

/-- The name of an artifact node. -/
def ArtifactNode.name : ArtifactNode → Str
  | .mk n _ _ => n

/-- InstallArtifactCommand._install_artifact_group: process artifacts in
manifest order; for each, run `_install_artifact` (`env name version` is its
outcome — `false` means it raised), then recurse into the nested tools, then
move to the next sibling.  An exception propagates out of the loop, so the
result is the ordered list of artifact names on which an install was
attempted, paired with whether the whole group completed. -/
def install_artifact_group (env : Str → Str → Bool) :
    List ArtifactNode → List Str × Bool
  | [] => ([], true)
  | .mk n v tools :: rest =>
      if env n v then
        match install_artifact_group env tools with
        | (t, true) =>
            match install_artifact_group env rest with
            | (t2, ok2) => (n :: (t ++ t2), ok2)
        | (t, false) => (n :: t, false)
      else ([n], false)

/-- Helper for C7: every element of a list is an element of any
interspersion of it. -/
theorem mem_intersperse_of_mem {β : Type _} (sep : β) {L : List β} {x : β} (h : x ∈ L) :
    x ∈ L.intersperse sep := by
  induction L with
  | nil => simp at h
  | cons a t ih =>
      cases t with
      | nil => simpa using h
      | cons b t2 =>
          rcases List.mem_cons.mp h with rfl | h2
          · exact List.mem_cons_self _ _
          · exact List.mem_cons_of_mem a (List.mem_cons_of_mem sep (ih h2))

/-- Helper for C7: every line produced by splitting on a separator is a
contiguous substring of the original list. -/
theorem infix_of_mem_splitOn {x c : Str} {a : Char} (h : x ∈ c.splitOn a) : x <:+: c := by
  have h2 : x ∈ (c.splitOn a).intersperse [a] := mem_intersperse_of_mem [a] h
  have h3 : x <:+: ((c.splitOn a).intersperse [a]).flatten := List.infix_of_mem_flatten h2
  rwa [show ((c.splitOn a).intersperse [a]).flatten = [a].intercalate (c.splitOn a) from rfl,
    List.intercalate_splitOn] at h3

/-- Helper for C2: with at least one extra index configured, the dependency
loop installs every declared dependency in order, each with the first extra
index as primary, the original primary as extra index, and the remaining
extras only when more than one of them exists. -/
theorem install_dependencies_eq_map (idx e0 : Str) (rest : List Str) (deps : List Str) :
    install_dependencies idx (e0 :: rest) deps =
      .ok (deps.map fun d =>
        (⟨d, false, e0, idx :: (if rest.length > 1 then rest else [])⟩ : Invocation)) := by
  induction deps with
  | nil => rfl
  | cons d ds ih =>
      simp only [install_dependencies, dependencies_artifact_command, ih, List.map_cons]
      rfl

/-- Claim C1: an `index-url` equal to the known default public URL selects
the Public adapter; any other value, including the empty-but-present one,
selects the Private adapter; a missing `index-url` raises the
configuration-missing error (MurError 213) rather than defaulting. -/
theorem C1_adapter_selection (u : Str) :
    get_registry_adapter (some DEFAULT_MURMUR_INDEX_URL) = .ok .publicRegistry
    ∧ (u ≠ DEFAULT_MURMUR_INDEX_URL → get_registry_adapter (some u) = .ok .privateRegistry)
    ∧ get_registry_adapter (some []) = .ok .privateRegistry
    ∧ get_registry_adapter none = .error ⟨213⟩ := by
  refine ⟨rfl, ?_, rfl, rfl⟩
  intro h
  simp [get_registry_adapter, verify_registry_settings, h]

/-- Witness for C1 at a concrete non-default private index URL. -/
theorem C1_adapter_selection_witness :
    get_registry_adapter (some ("http://private.example/simple".toList))
      = .ok .privateRegistry :=
  (C1_adapter_selection ("http://private.example/simple".toList)).2.1 (by decide)

/-- Counterexample for C2: with exactly two extra index URLs configured, the
declared dependency is installed with the first extra as primary and the
original primary as the only extra index — the second configured extra
(`e2`) appears nowhere in the installer invocation, so the dependency is not
installed "against the extra indexes" as claimed. -/
theorem C2_two_extras_counterexample :
    handle_artifact_installation ("a".toList) ("x.murmur.nexus".toList)
        ["e1".toList, "e2".toList] (.ok [("d".toList)]) none =
      .ok [⟨"a".toList, true, "x.murmur.nexus".toList, []⟩,
           ⟨"d".toList, false, "e1".toList, ["x.murmur.nexus".toList]⟩]
    ∧ ("e2".toList : Str) ∉
        (("e1".toList : Str) :: ["x.murmur.nexus".toList] : List Str) :=
  ⟨rfl, by decide⟩

/-- Claim C2 (amended): when the primary index contains the managed domain,
installation is two-step — one installer invocation against the primary
with dependency resolution disabled, then each declared dependency from the
metadata endpoint is installed with the first extra index as primary and
the original primary as an extra index, the remaining extras included only
when more than one of them is configured; when the primary index is not on
the managed domain, installation is a single invocation with full
dependency resolution. -/
theorem C2_index_url_routing (spec idx e0 : Str) (rest deps extras : List Str)
    (meta : MetaFetch) (mainResult : Option Str) :
    (nexusDomain <:+: idx →
      handle_artifact_installation spec idx (e0 :: rest) (.ok deps) none =
        .ok (main_artifact_command spec idx ::
          deps.map (fun d =>
            ⟨d, false, e0, idx :: (if rest.length > 1 then rest else [])⟩)))
    ∧ (¬ nexusDomain <:+: idx →
      handle_artifact_installation spec idx extras meta mainResult =
        .ok [private_artifact_command spec idx]) := by
  constructor
  · intro h
    simp only [handle_artifact_installation, if_pos h, install_nexus_artifact,
      process_artifact_metadata, install_dependencies_eq_map]
    rfl
  · intro h
    simp [handle_artifact_installation, if_neg h]

/-- Witness for C2 at a concrete managed-domain index with one extra index
and one declared dependency. -/
theorem C2_index_url_routing_witness :
    handle_artifact_installation ("a".toList) ("x.murmur.nexus".toList)
        ["e1".toList] (.ok [("d".toList)]) none =
      .ok [⟨"a".toList, true, "x.murmur.nexus".toList, []⟩,
           ⟨"d".toList, false, "e1".toList, ["x.murmur.nexus".toList]⟩] :=
  (C2_index_url_routing ("a".toList) ("x.murmur.nexus".toList) ("e1".toList) [] [("d".toList)]
    [] (.ok []) none).1 (by decide)

/-- Counterexample for C3: with an agent whose tools are [toolA, toolB] and
an environment in which only toolA's install fails, the attempted installs
are exactly [agent, toolA] — toolB is never attempted, contradicting the
claim that a toolA failure does not prevent toolB from being attempted. -/
theorem C3_sibling_abort_counterexample :
    install_artifact_group (fun n _ => if n = "toolA".toList then false else true)
        [.mk ("agent".toList) ("1".toList)
          [.mk ("toolA".toList) ("1".toList) [], .mk ("toolB".toList) ("1".toList) []]] =
      (["agent".toList, "toolA".toList], false)
    ∧ ("toolB".toList : Str) ∉
        (install_artifact_group (fun n _ => if n = "toolA".toList then false else true)
          [.mk ("agent".toList) ("1".toList)
            [.mk ("toolA".toList) ("1".toList) [], .mk ("toolB".toList) ("1".toList) []]]).1 := by
  have h : install_artifact_group (fun n _ => if n = "toolA".toList then false else true)
      [.mk ("agent".toList) ("1".toList)
        [.mk ("toolA".toList) ("1".toList) [], .mk ("toolB".toList) ("1".toList) []]] =
      (["agent".toList, "toolA".toList], false) := by
    simp [install_artifact_group]
  exact ⟨h, by rw [h]; decide⟩

/-- Claim C3 (amended): for a manifest with an agent whose nested tool list
is [toolA, toolB], the tools are installed depth-first in manifest order
after the parent's install returns successfully and toolA is fully
processed before toolB begins; but a failure installing toolA propagates
out of the group loop, so toolB is not attempted. -/
theorem C3_recursive_install_order (env : Str → Str → Bool) (aN aV tAn tAv tBn tBv : Str) :
    (env aN aV = true → env tAn tAv = true →
       install_artifact_group env
           [.mk aN aV [.mk tAn tAv [], .mk tBn tBv []]] =
         ([aN, tAn, tBn], env tBn tBv))
    ∧ (env aN aV = true → env tAn tAv = false →
       install_artifact_group env
           [.mk aN aV [.mk tAn tAv [], .mk tBn tBv []]] = ([aN, tAn], false))
    ∧ (env aN aV = false →
       install_artifact_group env
           [.mk aN aV [.mk tAn tAv [], .mk tBn tBv []]] = ([aN], false)) := by
  refine ⟨?_, ?_, ?_⟩
  · intro h1 h2
    cases h3 : env tBn tBv <;> simp [install_artifact_group, h1, h2, h3]
  · intro h1 h2
    simp [install_artifact_group, h1, h2]
  · intro h1
    simp [install_artifact_group, h1]

/-- Witness for C3 with every install succeeding: depth-first manifest
order. -/
theorem C3_recursive_install_order_witness :
    install_artifact_group (fun _ _ => true)
        [.mk ("agent".toList) ("1".toList)
          [.mk ("toolA".toList) ("1".toList) [], .mk ("toolB".toList) ("1".toList) []]] =
      (["agent".toList, "toolA".toList, "toolB".toList], true) :=
  (C3_recursive_install_order (fun _ _ => true) ("agent".toList) ("1".toList)
    ("toolA".toList) ("1".toList) ("toolB".toList) ("1".toList)).1 rfl rfl

/-- Counterexample for C4: a non-200 response (status 404) with a non-empty
body that is not valid JSON makes `response.json()` raise inside the outer
handler, so post raises the API-request-failed error (MurError 501) instead
of returning an envelope with `error` set, contradicting the claim that
only network-level failures raise. -/
theorem C4_non_200_raise_counterexample :
    ApiClient.post (J := Unit) (T := Unit) (fun _ => none)
        (some ⟨404, true, none, ("Not Found".toList)⟩) = .error ⟨501⟩ := rfl

/-- Claim C4 (amended): on HTTP 200 with a body that decodes and validates,
the envelope has data set and error absent; on HTTP 200 with a
decode/validation failure it returns with error set and data absent; on a
non-200 status with a JSON-decodable body, or with an empty body, it
returns with error equal to the response text and the decoded body carried;
but a non-200 status with a non-empty non-JSON body raises MurError 501,
the same error raised for network-level failures. -/
theorem C4_post_envelope {J T : Type} (validate : J → Option T) (r : HttpResp J)
    (j : J) (t : T) :
    (r.status = 200 → r.jsonBody = some j → validate j = some t →
       ApiClient.post validate (some r) = .ok ⟨200, some t, some j, none⟩)
  ∧ (r.status = 200 → r.jsonBody = some j → validate j = none →
       ApiClient.post validate (some r) = .ok ⟨200, none, some j, some parseFailureMsg⟩)
  ∧ (r.status = 200 → r.jsonBody = none →
       ApiClient.post validate (some r) = .ok ⟨200, none, none, some parseFailureMsg⟩)
  ∧ (r.status ≠ 200 → r.hasContent = true → r.jsonBody = some j →
       ApiClient.post validate (some r) = .ok ⟨r.status, none, some j, some r.text⟩)
  ∧ (r.status ≠ 200 → r.hasContent = false →
       ApiClient.post validate (some r) = .ok ⟨r.status, none, none, some r.text⟩)
  ∧ (r.status ≠ 200 → r.hasContent = true → r.jsonBody = none →
       ApiClient.post validate (some r) = .error ⟨501⟩)
  ∧ ApiClient.post validate (none : Option (HttpResp J)) = .error ⟨501⟩ := by
  refine ⟨?_, ?_, ?_, ?_, ?_, ?_, rfl⟩ <;> intro h1 h2 <;>
    first
    | (intro h3; simp [ApiClient.post, h1, h2, h3])
    | simp [ApiClient.post, h1, h2]

/-- Witness for C4 on a concrete successful 200 response. -/
theorem C4_post_envelope_witness :
    ApiClient.post (J := Unit) (T := Unit) (fun _ => some ())
        (some ⟨200, true, some (), []⟩) = .ok ⟨200, some (), some (), none⟩ :=
  (C4_post_envelope (fun _ => some ()) ⟨200, true, some (), []⟩ () ()).1 rfl rfl rfl

/-- Counterexample for C5: a present-but-empty `index-url` makes the public
adapter return the empty string verbatim as the primary index — the
configparser fallback substitutes the default only when the option is
absent — so the claim that an empty value is replaced by the hardcoded
default is false. -/
theorem C5_public_empty_counterexample :
    PublicRegistryAdapter.get_package_indexes (some []) none = [[]]
    ∧ DEFAULT_MURMUR_INDEX_URL ≠ [] :=
  ⟨rfl, by decide⟩

/-- Claim C5 (amended): the private adapter raises the configuration-missing
error (MurError 807) when `index-url` is absent or empty, never a silent
default; the public adapter substitutes the hardcoded default only when
`index-url` is absent, uses a present-but-empty value verbatim, and in all
cases returns the primary index first followed by the extras without
failing. -/
theorem C5_missing_index_url_asymmetry (u : Str) (extra : Option Str) :
    PrivateRegistryAdapter.get_package_indexes none extra = .error ⟨807⟩
  ∧ PrivateRegistryAdapter.get_package_indexes (some []) extra = .error ⟨807⟩
  ∧ (u ≠ [] → PrivateRegistryAdapter.get_package_indexes (some u) extra
        = .ok (u :: parse_extra_index_urls extra))
  ∧ PublicRegistryAdapter.get_package_indexes none extra
        = DEFAULT_MURMUR_INDEX_URL :: parse_extra_index_urls extra
  ∧ PublicRegistryAdapter.get_package_indexes (some u) extra
        = u :: parse_extra_index_urls extra := by
  refine ⟨rfl, rfl, ?_, rfl, rfl⟩
  intro h
  simp [PrivateRegistryAdapter.get_package_indexes, h]

/-- Witness for C5 at a concrete non-empty private index URL. -/
theorem C5_missing_index_url_asymmetry_witness :
    PrivateRegistryAdapter.get_package_indexes
        (some ("http://idx.example/simple".toList)) none
      = .ok [("http://idx.example/simple".toList)] :=
  (C5_missing_index_url_asymmetry ("http://idx.example/simple".toList) none).2.2.1 (by decide)

/-- Claim C6: installing an artifact already installed at the requested
version — or installed at any version when the requested version is
`latest` (case-insensitively) or empty — performs zero installer
invocations and succeeds. -/
theorem C6_install_idempotence (iv name version idx : Str) (extras : List Str)
    (meta : MetaFetch) (mainResult : Option Str)
    (h : pyLower version = latestStr ∨ version = [] ∨ iv = version) :
    install_artifact (some iv) name version idx extras meta mainResult = .ok [] := by
  have hinst : is_artifact_installed (some iv) version = true := by
    unfold is_artifact_installed
    rcases h with h | h | h
    · simp [h]
    · simp [h]
    · by_cases h2 : pyLower version = latestStr ∨ version = []
      · simp [h2]
      · simp [h2, h]
  simp [install_artifact, hinst]

/-- Witness for C6: a request for `latest` of an artifact installed at
version 1.0 performs no installer invocation. -/
theorem C6_install_idempotence_witness :
    install_artifact (some ("1.0".toList)) ("foo".toList) ("latest".toList)
      ("x.murmur.nexus".toList) [] (.ok []) none = .ok [] :=
  C6_install_idempotence ("1.0".toList) ("foo".toList) ("latest".toList)
    ("x.murmur.nexus".toList) [] (.ok []) none (Or.inl (by decide))

/-- Claim C7: updating the aggregation file is idempotent (appending the
same import line twice equals appending it once), an absent file is created
holding exactly the import line, and when the exact line is already present
as one of the file's lines exactly once, the update leaves exactly one
occurrence. -/
theorem C7_aggregation_file_idempotence (name : Str) (file : Option Str) (c : Str) :
    update_init_file name (some (update_init_file name file)) = update_init_file name file
    ∧ update_init_file name none = import_line_of name ++ [nlChar]
    ∧ ((c.splitOn nlChar).count (import_line_of name) = 1 →
        ((update_init_file name (some c)).splitOn nlChar).count (import_line_of name) = 1) := by
  refine ⟨?_, rfl, ?_⟩
  · cases file with
    | none =>
        show update_init_file name (some (import_line_of name ++ [nlChar])) = _
        have h : import_line_of name <:+: import_line_of name ++ [nlChar] := ⟨[], [nlChar], rfl⟩
        simp [update_init_file, h]
    | some c0 =>
        by_cases h : import_line_of name <:+: c0
        · simp [update_init_file, h]
        · have h2 : import_line_of name <:+:
              (if c0.getLast? = some nlChar then c0 else c0 ++ [nlChar])
                ++ import_line_of name ++ [nlChar] :=
            List.infix_append _ _ _
          simp only [update_init_file, if_neg h, if_pos h2]
  · intro hc
    have hmem : import_line_of name ∈ c.splitOn nlChar := by
      have : 0 < (c.splitOn nlChar).count (import_line_of name) := by omega
      exact List.count_pos_iff.mp this
    have hinf : import_line_of name <:+: c := infix_of_mem_splitOn hmem
    simpa [update_init_file, hinf] using hc

/-- Witness for C7: a file holding exactly the import line for `foo` still
holds exactly one occurrence after another update for `foo`. -/
theorem C7_aggregation_file_idempotence_witness :
    (((import_line_of ("foo".toList) ++ [nlChar]).splitOn nlChar).count
        (import_line_of ("foo".toList)) = 1)
    ∧ (((update_init_file ("foo".toList)
          (some (import_line_of ("foo".toList) ++ [nlChar]))).splitOn nlChar).count
        (import_line_of ("foo".toList)) = 1) :=
  ⟨by decide,
   (C7_aggregation_file_idempotence ("foo".toList) none
     (import_line_of ("foo".toList) ++ [nlChar])).2.2 (by decide)⟩

/-- Counterexample for C8: an error message containing both the
token-expired substring and the duplicate-package substring maps to
MurError 504, not 302, because the overrides are checked in order — so the
claim is false for a message that contains the duplicate substring together
with an earlier override substring. -/
theorem C8_override_order_counterexample :
    PublicRegistryAdapter.handle_error_response 409
      ("Token has expired - The package or file already exists in the feed".toList) = ⟨504⟩
    ∧ duplicateVersionMsg <:+:
      ("Token has expired - The package or file already exists in the feed".toList)
    ∧ (⟨504⟩ : MurError) ≠ (⟨302⟩ : MurError) :=
  ⟨rfl, by decide, by decide⟩

/-- Claim C8 (amended): a publish error message containing the
duplicate-package substring and neither of the earlier override substrings
maps to the duplicate-version code 302 whatever the HTTP status; the
overrides are checked in order token-expired (504), bad-credentials (502),
duplicate-version (302) before the fixed status-code table is consulted. -/
theorem C8_publish_error_mapping (status : Nat) (msg : Str) :
    (¬ tokenExpiredMsg <:+: msg → ¬ badCredentialsMsg <:+: msg →
       duplicateVersionMsg <:+: msg →
       PublicRegistryAdapter.handle_error_response status msg = ⟨302⟩)
  ∧ (tokenExpiredMsg <:+: msg →
       PublicRegistryAdapter.handle_error_response status msg = ⟨504⟩)
  ∧ (¬ tokenExpiredMsg <:+: msg → badCredentialsMsg <:+: msg →
       PublicRegistryAdapter.handle_error_response status msg = ⟨502⟩)
  ∧ (¬ tokenExpiredMsg <:+: msg → ¬ badCredentialsMsg <:+: msg →
       ¬ duplicateVersionMsg <:+: msg →
       PublicRegistryAdapter.handle_error_response status msg
         = ⟨STATUS_CODE_MAPPING status⟩) := by
  refine ⟨?_, ?_, ?_, ?_⟩ <;> intro h1 <;>
    first
    | (intro h2 h3; simp [PublicRegistryAdapter.handle_error_response, h1, h2, h3])
    | (intro h2; simp [PublicRegistryAdapter.handle_error_response, h1, h2])
    | simp [PublicRegistryAdapter.handle_error_response, h1]

/-- Witness for C8: the bare duplicate-package message under a 409-like
status maps to 302. -/
theorem C8_publish_error_mapping_witness :
    PublicRegistryAdapter.handle_error_response 409 duplicateVersionMsg = ⟨302⟩ :=
  (C8_publish_error_mapping 409 duplicateVersionMsg).1 (by decide) (by decide) (by decide)

/-- Claim C9: uninstalling an artifact whose normalized name matches no
installed package returns success with no pip uninstall invocation and no
error. -/
theorem C9_uninstall_noop (artifacts : List Str) (name : Str) (pipOk : Bool)
    (h : ∀ pkg ∈ artifacts, normalize_artifact_name pkg ≠ normalize_artifact_name name) :
    uninstall_artifact artifacts name pipOk = .ok [] := by
  have hfind : find_installed_artifact name artifacts = none := by
    unfold find_installed_artifact
    rw [List.find?_eq_none]
    intro x hx
    simpa using h x hx
  simp [uninstall_artifact, hfind]

/-- Witness for C9: uninstalling a never-installed name is a no-op. -/
theorem C9_uninstall_noop_witness :
    uninstall_artifact [("other-pkg".toList)] ("ghost".toList) true = .ok [] :=
  C9_uninstall_noop [("other-pkg".toList)] ("ghost".toList) true (by decide)

/-- Claim C10: the dependency install passes the first configured extra
index URL as the primary index and the original primary index as an extra
index; with no extra index configured it raises (IndexError) before any
installer invocation; with exactly two extras the second is omitted from
the invocation, and extras beyond the first are passed only when three or
more are configured. -/
theorem C10_dependency_install_arguments (d idx e0 e1 e2 : Str) (rest : List Str) :
    dependencies_artifact_command d idx [] = .error .indexError
  ∧ dependencies_artifact_command d idx [e0] = .ok ⟨d, false, e0, [idx]⟩
  ∧ dependencies_artifact_command d idx [e0, e1] = .ok ⟨d, false, e0, [idx]⟩
  ∧ dependencies_artifact_command d idx (e0 :: e1 :: e2 :: rest) =
      .ok ⟨d, false, e0, idx :: e1 :: e2 :: rest⟩ := by
  refine ⟨rfl, rfl, rfl, ?_⟩
  simp [dependencies_artifact_command]
